import Mathlib

/-!
Verification development for the VEO3-Generator repository.

The definitions below are a shallow embedding, in Lean 4, of the Python
sources `src/sop_questionnaire.py`, `src/sop_translator.py` and
`src/veo3_client.py`.  Pure string-building code is translated to Lean
functions on `String`; Python exceptions are modelled with `Except`;
the HTTP world of the client is modelled by explicit oracles giving the
outcome of each external call.  Python truthiness of strings, optional
strings and lists (empty or `None` values are falsy) is made explicit.
-/

/-- Video style options (enum `VideoStyle` in `sop_questionnaire.py`). -/
inductive VideoStyle where
  | PROFESSIONAL
  | CASUAL
  | EDUCATIONAL
  | PROMOTIONAL
deriving DecidableEq, Repr

/-- Target platforms (enum `PlatformTarget` in `sop_questionnaire.py`). -/
inductive PlatformTarget where
  | INSTAGRAM
  | TIKTOK
  | YOUTUBE_SHORTS
  | FACEBOOK
  | LINKEDIN
  | TWITTER
deriving DecidableEq, Repr

/-- Single 8-second segment of an SOP video (dataclass `SOPSegment`). -/
structure SOPSegment where
  segment_number : Int
  title : String
  description : String
  key_action : String
  visual_focus : String
  duration : Int := 8
  text_overlay : Option String := none
  voiceover_script : Option String := none
  props_needed : List String := []
  location : Option String := none
deriving DecidableEq, Repr

/-- Complete questionnaire for SOP video generation (dataclass `SOPQuestionnaire`). -/
structure SOPQuestionnaire where
  project_title : String
  sop_purpose : String
  target_audience : String
  video_style : VideoStyle
  brand_colors : List String := []
  brand_fonts : List String := []
  target_platforms : List PlatformTarget := []
  presenter_type : String := "none"
  presenter_description : Option String := none
  presenter_clothing : Option String := none
  primary_location : String := ""
  location_description : String := ""
  lighting_preference : String := "bright_professional"
  segments : List SOPSegment := []
  company_name : Option String := none
  logo_placement : Option String := none
  intro_outro_needed : Bool := true
  music_style : Option String := none
  voiceover_needed : Bool := false
  voiceover_language : String := "english"
  consistency_mode : String := "strict"
deriving DecidableEq, Repr

/-- Python truthiness of an optional string: `None` and the empty string are falsy. -/
def optTruthy : Option String → Bool
  | none => false
  | some s => s ≠ ""

/-- First validation error among the per-segment checks of
`SOPQuestionnaire.validate` (the `for segment in self.segments` loop):
for each segment in list order, missing title, then missing description,
then missing key action, each message naming the segment number. -/
def firstSegErr : List SOPSegment → Option String
  | [] => none
  | s :: rest =>
    if s.title = "" then
      some ("Segment " ++ toString s.segment_number ++ " missing title")
    else if s.description = "" then
      some ("Segment " ++ toString s.segment_number ++ " missing description")
    else if s.key_action = "" then
      some ("Segment " ++ toString s.segment_number ++ " missing key action")
    else firstSegErr rest

/-- Embedding of `SOPQuestionnaire.validate`: checks project title, purpose,
audience, zero segments, more than 6 segments, then each segment in order.
Returns the `(is_valid, error)` pair of the Python method. -/
def SOPQuestionnaire.validate (q : SOPQuestionnaire) : Bool × Option String :=
  if q.project_title = "" then (false, some "Project title is required")
  else if q.sop_purpose = "" then (false, some "SOP purpose is required")
  else if q.target_audience = "" then (false, some "Target audience is required")
  else if q.segments.length = 0 then (false, some "At least one segment is required")
  else if q.segments.length > 6 then (false, some "Maximum 6 segments allowed (48 seconds total)")
  else
    match firstSegErr q.segments with
    | some e => (false, some e)
    | none => (true, none)

/-- The three completeness checks the spec lists for one segment, in the
order the spec states them, as optional failure messages. -/
def segCheckMsgs (s : SOPSegment) : List (Option String) :=
  [if s.title = "" then some ("Segment " ++ toString s.segment_number ++ " missing title") else none,
   if s.description = "" then some ("Segment " ++ toString s.segment_number ++ " missing description") else none,
   if s.key_action = "" then some ("Segment " ++ toString s.segment_number ++ " missing key action") else none]

/-- Modelled from the wording of the validation contract in the spec: the
ordered list of checks (title, purpose, audience, zero segments, more than
6 segments, then the per-segment checks in list order), from which the
first failing reason is taken.  Used to compare against
`SOPQuestionnaire.validate`. -/
def specFirstFailure (q : SOPQuestionnaire) : Option String :=
  (([if q.project_title = "" then some "Project title is required" else none,
     if q.sop_purpose = "" then some "SOP purpose is required" else none,
     if q.target_audience = "" then some "Target audience is required" else none,
     if q.segments.length = 0 then some "At least one segment is required" else none,
     if q.segments.length > 6 then some "Maximum 6 segments allowed (48 seconds total)" else none]
    ++ q.segments.flatMap segCheckMsgs).filterMap id).head?

/-- The single-quote character used by the Python f-string around the text
overlay (written via its code point to keep the embedding plain ASCII). -/
def sglq : String := String.singleton (Char.ofNat 39)

/-- Fixed lookup `style_to_cinematography` of `SOPPromptTranslator.__init__`.
The Python dict has an entry for every `VideoStyle` variant, so the
`.get` default of `translate_segment` is never consulted. -/
def styleToCinematography : VideoStyle → String
  | .PROFESSIONAL => "steady, professional camera work, clean composition, corporate aesthetic"
  | .CASUAL => "handheld feel, natural movement, relaxed framing, approachable style"
  | .EDUCATIONAL => "clear, focused shots, instructional framing, detailed visibility"
  | .PROMOTIONAL => "dynamic angles, engaging movement, polished production, eye-catching"

/-- Fixed lookup `style_to_lighting` of `SOPPromptTranslator.__init__`;
again total over the enum, so the `.get` default is never consulted. -/
def styleToLighting : VideoStyle → String
  | .PROFESSIONAL => "bright, even professional lighting, high-key setup"
  | .CASUAL => "natural lighting, soft shadows, warm tones"
  | .EDUCATIONAL => "clear, well-lit environment, no harsh shadows, visibility priority"
  | .PROMOTIONAL => "dramatic lighting, vibrant colors, high contrast, professional grade"

/-- Header, scene, action and focus lines of `translate_segment`
(source lines 51 to 58). -/
def headerParts (seg : SOPSegment) : List String :=
  ["[8-second video segment - " ++ seg.title ++ "]", "",
   "Scene: " ++ seg.description,
   "Key Action: " ++ seg.key_action,
   "Visual Focus: " ++ seg.visual_focus, ""]

/-- Presenter block of `translate_segment` (source lines 61 to 73). -/
def presenterParts (q : SOPQuestionnaire) : List String :=
  if q.presenter_type = "person" then
    (if optTruthy q.presenter_description then
       ["Presenter: " ++ q.presenter_description.getD ""] else [])
    ++ (if optTruthy q.presenter_clothing then
       ["Clothing: " ++ q.presenter_clothing.getD ""] else [])
    ++ ["Presenter position: Center frame, professional posture, engaging with camera", ""]
  else if q.presenter_type = "animated_character" then
    (if optTruthy q.presenter_description then
       ["Animated Character: " ++ q.presenter_description.getD ""] else [])
    ++ ["Character animation: Smooth, professional quality, expressive", ""]
  else []

/-- Location block of `translate_segment` (source lines 76 to 84): the
segment-level location override takes precedence, the raw
`location_description` line is appended when non-empty, and the block
always ends with a blank line. -/
def locationParts (seg : SOPSegment) (q : SOPQuestionnaire) : List String :=
  (if optTruthy seg.location then ["Location: " ++ seg.location.getD ""]
   else if q.primary_location ≠ "" then ["Location: " ++ q.primary_location]
   else [])
  ++ (if q.location_description ≠ "" then [q.location_description] else [])
  ++ [""]

/-- Cinematography and lighting lines of `translate_segment`
(source lines 87 to 99). -/
def cinematographyParts (q : SOPQuestionnaire) : List String :=
  ["Cinematography: " ++ styleToCinematography q.video_style,
   "Lighting: " ++ styleToLighting q.video_style, ""]

/-- Brand color block of `translate_segment` (source lines 102 to 105),
emitted only when the color list is non-empty. -/
def brandColorParts (q : SOPQuestionnaire) : List String :=
  if q.brand_colors ≠ [] then
    ["Color palette: " ++ String.intercalate ", " q.brand_colors ++ ", maintaining brand consistency", ""]
  else []

/-- Text overlay block of `translate_segment` (source lines 108 to 113). -/
def textOverlayParts (seg : SOPSegment) (q : SOPQuestionnaire) : List String :=
  if optTruthy seg.text_overlay then
    ["Text Overlay: " ++ sglq ++ seg.text_overlay.getD "" ++ sglq,
     "Text position: Lower third, clean sans-serif font, high contrast"]
    ++ (if q.brand_colors ≠ [] then ["Text color: " ++ q.brand_colors.headD ""] else [])
    ++ [""]
  else []

/-- Props block of `translate_segment` (source lines 116 to 119). -/
def propsParts (seg : SOPSegment) : List String :=
  if seg.props_needed ≠ [] then
    ["Props visible: " ++ String.intercalate ", " seg.props_needed, ""]
  else []

/-- Continuity block of `translate_segment` (source lines 122 to 135),
emitted only when a previous segment is supplied and the current segment
number exceeds 1. -/
def continuityParts (seg : SOPSegment) (q : SOPQuestionnaire)
    (prev : Option SOPSegment) : List String :=
  match prev with
  | none => []
  | some p =>
    if seg.segment_number > 1 then
      ["CONTINUITY REQUIREMENTS:"]
      ++ (if q.presenter_type = "person" ∨ q.presenter_type = "animated_character" then
            ["- Presenter MUST match exact appearance from Segment " ++ toString p.segment_number]
            ++ (if optTruthy q.presenter_clothing then
                  ["- Maintain exact clothing: " ++ q.presenter_clothing.getD ""] else [])
          else [])
      ++ (if q.primary_location ≠ "" then
            ["- Location MUST be identical to previous segment",
             "- Lighting MUST match previous segment exactly"]
          else [])
      ++ ["- Color palette MUST be consistent with previous segment", ""]
    else []

/-- Fixed technical-requirements block of `translate_segment`
(source lines 138 to 143); the duration line is the literal
"- Exactly 8 seconds duration" with no reference to the segment. -/
def techParts : List String :=
  ["Technical Requirements:",
   "- Exactly 8 seconds duration",
   "- Smooth, professional quality",
   "- No camera shake or jitter",
   "- Clear, in-focus subjects",
   "- Professional production value"]

/-- Consistency-mode disclaimer line of `translate_segment`
(source lines 146 to 151); any mode other than strict or balanced falls
to the creative line, mirroring the Python else branch. -/
def modeLine (m : String) : String :=
  if m = "strict" then "- STRICT consistency: no variations from established baseline"
  else if m = "balanced" then "- Balanced: maintain core consistency while allowing natural variation"
  else "- Creative: preserve key elements but allow creative expression"

/-- Negative-constraints block of `translate_segment` (source lines 156
to 163), with two extra lines when the segment number exceeds 1. -/
def negParts (seg : SOPSegment) : List String :=
  ["DO NOT INCLUDE:",
   "- Unrelated objects or people",
   "- Sudden lighting changes",
   "- Jump cuts or abrupt transitions",
   "- Inconsistent styles or aesthetics"]
  ++ (if seg.segment_number > 1 then
        ["- ANY changes to presenter appearance",
         "- ANY changes to location or background"]
      else [])

/-- The `prompt_parts` list built by `translate_segment`, as the
concatenation of its blocks in source order. -/
def promptParts (seg : SOPSegment) (q : SOPQuestionnaire)
    (prev : Option SOPSegment) : List String :=
  headerParts seg ++ presenterParts q ++ locationParts seg q
  ++ cinematographyParts q ++ brandColorParts q ++ textOverlayParts seg q
  ++ propsParts seg ++ continuityParts seg q prev
  ++ techParts ++ [modeLine q.consistency_mode, ""] ++ negParts seg

/-- Embedding of `SOPPromptTranslator.translate_segment`: the prompt is
the parts list joined with newlines (the final `"\n".join(prompt_parts)`). -/
def translate_segment (seg : SOPSegment) (q : SOPQuestionnaire)
    (prev : Option SOPSegment) : String :=
  String.intercalate "\n" (promptParts seg q prev)

/-- Opaque-payload metadata mapping carried in API responses (the Python
side treats it as an arbitrary dict; its contents are never inspected). -/
abbrev Meta : Type := List (String × String)

/-- The `consistency_markers` dict assembled by `translate_questionnaire`
(source lines 193 to 205): segment number, sequence id, consistency mode
and the conditionally added constant presenter and location ids. -/
structure ConsistencyMarkers where
  segment_number : Int
  sequence_id : String
  consistency_mode : String
  presenter_id : Option String := none
  location_id : Option String := none
deriving DecidableEq, Repr

/-- Dataclass `VideoGenerationRequest` of `veo3_client.py`. -/
structure VideoGenerationRequest where
  prompt : String
  duration : Option Int := none
  resolution : Option String := none
  fps : Option Int := none
  aspect_ratio : Option String := none
  consistency_markers : Option ConsistencyMarkers := none
  scene_id : Option String := none
  sequence_id : Option String := none
deriving DecidableEq, Repr

/-- Dataclass `VideoGenerationResponse` of `veo3_client.py`. -/
structure VideoGenerationResponse where
  success : Bool
  video_path : Option String := none
  video_url : Option String := none
  metadata : Option Meta := none
  error : Option String := none
  retry_count : Int := 0
deriving DecidableEq, Repr

/-- The generation request built for one segment in the loop body of
`translate_questionnaire` (source lines 190 to 214). -/
def mkRequest (q : SOPQuestionnaire) (seg : SOPSegment)
    (prev : Option SOPSegment) : VideoGenerationRequest :=
  { prompt := translate_segment seg q prev
    duration := some seg.duration
    scene_id := some (q.project_title ++ "_segment_" ++ toString seg.segment_number)
    sequence_id := some q.project_title
    consistency_markers := some
      { segment_number := seg.segment_number
        sequence_id := q.project_title
        consistency_mode := q.consistency_mode
        presenter_id :=
          if q.presenter_type = "person" ∨ q.presenter_type = "animated_character" then
            some "presenter_001" else none
        location_id :=
          if q.primary_location ≠ "" then some "location_001" else none } }

/-- The segment loop of `translate_questionnaire`: iterates the segments in
list order, carrying the previous segment as state. -/
def transLoop (q : SOPQuestionnaire) :
    List SOPSegment → Option SOPSegment → List VideoGenerationRequest
  | [], _ => []
  | s :: rest, prev => mkRequest q s prev :: transLoop q rest (some s)

/-- Rendering of an optional validation message inside the Python f-string
`f"Invalid questionnaire: {error}"` (a Python `None` prints as "None"). -/
def optMsg : Option String → String
  | none => "None"
  | some e => e

/-- Embedding of `SOPPromptTranslator.translate_questionnaire`: validates
first and raises `ValueError` (modelled as `Except.error`) on failure,
otherwise produces one request per segment in list order. -/
def translate_questionnaire (q : SOPQuestionnaire) :
    Except String (List VideoGenerationRequest) :=
  if (q.validate).1 = false then
    .error ("Invalid questionnaire: " ++ optMsg (q.validate).2)
  else
    .ok (transLoop q q.segments none)

/-- Parsed JSON body of the initial `generateVideo` POST response
(`result` in `generate_video`): an optional operation id, an optional
video URL and optional metadata, mirroring the `in`-membership tests of
the Python code. -/
structure GenResult where
  operationId : Option String := none
  videoUrl : Option String := none
  metadata : Option Meta := none
deriving DecidableEq, Repr

/-- Parsed JSON body of one polling GET response in
`_poll_generation_status`: the `done` flag, an optional `error` object
carrying an optional `message`, and the optional `response.videoUrl` and
`response.metadata` fields. -/
structure PollResult where
  done : Bool := false
  error : Option (Option String) := none
  videoUrl : Option String := none
  metadata : Option Meta := none
deriving DecidableEq, Repr

/-- Embedding of `VEO3Client._download_video`.  The network fetch and the
chunked file write are modelled by the oracle `fetch`; an exception there
is logged and re-raised (the `raise` in the `except` block), so the
function returns `Except.error` rather than absorbing the failure.  On
success it returns the output path built from the scene id (or the
fallback literal "video") and the current timestamp `t`. -/
def download_video (outputDir : String) (sceneId : Option String) (t : Nat)
    (fetch : Except String Unit) : Except String String :=
  match fetch with
  | .error e => .error e
  | .ok _ =>
    .ok (outputDir ++ "/" ++
      (if optTruthy sceneId then sceneId.getD "" else "video")
      ++ "_" ++ toString t ++ ".mp4")

/-- Failed response as built by the error branches of the client:
only the error text is set. -/
def failResp (e : String) : VideoGenerationResponse :=
  { success := false, error := some e }

/-- One iteration plus recursion of the polling loop of
`_poll_generation_status`.  `polls i` is the outcome of the i-th GET of
the operation status (`Except.error` models any exception raised inside
the try block, which the Python code catches and converts into a
"Polling failed" response).  `dl u` is the result of
`_download_video` on url `u`; an exception it re-raises is likewise
caught by the same handler.  `rem` is the number of remaining attempts. -/
def pollLoop (polls : Nat → Except String PollResult)
    (dl : String → Except String String) : Nat → Nat → VideoGenerationResponse
  | _, 0 => failResp "Generation timeout"
  | i, rem + 1 =>
    match polls i with
    | .error e => failResp ("Polling failed: " ++ e)
    | .ok r =>
      if r.done then
        match r.error with
        | some msg => failResp (msg.getD "Unknown error")
        | none =>
          match r.videoUrl with
          | some u =>
            if u ≠ "" then
              match dl u with
              | .ok path =>
                { success := true, video_path := some path, video_url := some u,
                  metadata := some (r.metadata.getD []) }
              | .error e => failResp ("Polling failed: " ++ e)
            else pollLoop polls dl (i + 1) rem
          | none => pollLoop polls dl (i + 1) rem
      else pollLoop polls dl (i + 1) rem

/-- Embedding of `VEO3Client._poll_generation_status`: at most
`max_polls = 60` attempts starting at attempt index 0 (the 5-second sleep
has no observable effect in this model); exhausting the attempts yields
the "Generation timeout" failure. -/
def poll_generation_status (polls : Nat → Except String PollResult)
    (dl : String → Except String String) : VideoGenerationResponse :=
  pollLoop polls dl 0 60

/-- Embedding of `VEO3Client.generate_video`.  `post` is the outcome of
the POST to the generation endpoint together with parsing its JSON body
(`Except.error` models `requests.exceptions.RequestException` and every
other exception, all converted by the two except blocks into a failed
response).  `polls` gives the polling outcomes and `fetch u` the download
outcome for url `u`; `t` is the timestamp used for the output filename.
Every code path returns a `VideoGenerationResponse`: the function never
raises to its caller. -/
def generate_video (outputDir : String) (req : VideoGenerationRequest)
    (t : Nat) (post : Except String GenResult)
    (polls : Nat → Except String PollResult)
    (fetch : String → Except String Unit) : VideoGenerationResponse :=
  match post with
  | .error e => failResp e
  | .ok result =>
    match result.operationId with
    | some _ =>
      poll_generation_status polls
        (fun u => download_video outputDir req.scene_id t (fetch u))
    | none =>
      match result.videoUrl with
      | some url =>
        match download_video outputDir req.scene_id t (fetch url) with
        | .ok path =>
          { success := true, video_path := some path, video_url := some url,
            metadata := some (result.metadata.getD []) }
        | .error e => failResp e
      | none => failResp "Unexpected API response format"

/-- Python string whitespace as stripped by `str.strip()` with no
argument: the CPython Py_UNICODE_ISSPACE set — code points 9 to 13
(tab, newline, vertical tab, form feed, carriage return), 28 to 31
(file, group, record and unit separators), 32 (space), 0x85 (next
line), 0xA0 (no-break space), 0x1680 (ogham space mark), 0x2000 to
0x200A (fixed-width spaces), 0x2028 (line separator), 0x2029
(paragraph separator), 0x202F (narrow no-break space), 0x205F (medium
mathematical space) and 0x3000 (ideographic space). -/
def isPyWs (c : Char) : Bool :=
  (9 ≤ c.toNat ∧ c.toNat ≤ 13) ∨ (28 ≤ c.toNat ∧ c.toNat ≤ 31)
  ∨ c.toNat = 32 ∨ c.toNat = 0x85 ∨ c.toNat = 0xA0 ∨ c.toNat = 0x1680
  ∨ (0x2000 ≤ c.toNat ∧ c.toNat ≤ 0x200A) ∨ c.toNat = 0x2028
  ∨ c.toNat = 0x2029 ∨ c.toNat = 0x202F ∨ c.toNat = 0x205F ∨ c.toNat = 0x3000

/-- Embedding of Python `str.strip()`: drop whitespace from both ends. -/
def pyStrip (s : String) : String :=
  String.mk (((s.data.dropWhile isPyWs).reverse.dropWhile isPyWs).reverse)

/-- Embedding of `VEO3Client.validate_prompt` (source lines 227 to 245):
empty or whitespace-only input is rejected first, then length under 10,
then length over 5000; everything else is accepted. -/
def validate_prompt (p : String) : Bool × Option String :=
  if p = "" ∨ (pyStrip p).length = 0 then
    (false, some "Prompt cannot be empty")
  else if p.length < 10 then
    (false, some "Prompt too short (minimum 10 characters)")
  else if p.length > 5000 then
    (false, some "Prompt too long (maximum 5000 characters)")
  else (true, none)

/-- Decides whether the character list `pat` starts the list `s`. -/
def chStarts : List Char → List Char → Bool
  | [], _ => true
  | _ :: _, [] => false
  | p :: ps, c :: cs => p = c && chStarts ps cs

/-- Decides whether the character list `pat` occurs contiguously inside `s`. -/
def chSub (pat : List Char) : List Char → Bool
  | [] => chStarts pat []
  | c :: cs => chStarts pat (c :: cs) || chSub pat cs

/-- Substring containment on strings, used to state that a generated
prompt contains a given literal phrase. -/
def strHas (s pat : String) : Bool := chSub pat.data s.data

theorem dropWhile_all_neg {p : Char → Bool} : ∀ l : List Char, (∀ c ∈ l, p c = false) →
    List.dropWhile p l = l
  | [], _ => rfl
  | c :: cs, h => by
    simp [List.dropWhile_cons, h c (by simp)]

theorem pyStrip_of_no_ws (l : List Char) (h : ∀ c ∈ l, isPyWs c = false) :
    pyStrip (String.mk l) = String.mk l := by
  unfold pyStrip
  rw [dropWhile_all_neg l h, dropWhile_all_neg l.reverse (by simpa using h), List.reverse_reverse]

theorem pyStrip_len_of_all_a (n : Nat) :
    (pyStrip (String.mk (List.replicate n 'a'))).length = n := by
  rw [pyStrip_of_no_ws _ (by
    intro c hc
    rw [List.eq_of_mem_replicate hc]
    decide)]
  show (List.replicate n 'a').length = n
  exact List.length_replicate n 'a'

theorem mkRepl_length (n : Nat) : (String.mk (List.replicate n 'a')).length = n := by
  show (List.replicate n 'a').length = n
  exact List.length_replicate n 'a'

/-- C9: `validate_prompt` rejects empty or whitespace-only input (input
whose stripped form has length 0) with "Prompt cannot be empty", rejects
other input shorter than 10 characters as too short, rejects other input
longer than 5000 characters as too long, and accepts every remaining
input; in particular the empty string and "hi" are rejected, a
5001-character string is rejected as too long, and a 50-character string
is accepted. -/
theorem C9_validate_prompt_contract :
    (∀ p : String,
      ((pyStrip p).length = 0 →
        validate_prompt p = (false, some "Prompt cannot be empty"))
      ∧ ((pyStrip p).length ≠ 0 → p.length < 10 →
        validate_prompt p = (false, some "Prompt too short (minimum 10 characters)"))
      ∧ ((pyStrip p).length ≠ 0 → p.length > 5000 →
        validate_prompt p = (false, some "Prompt too long (maximum 5000 characters)"))
      ∧ ((pyStrip p).length ≠ 0 → 10 ≤ p.length → p.length ≤ 5000 →
        validate_prompt p = (true, none)))
    ∧ validate_prompt "" = (false, some "Prompt cannot be empty")
    ∧ validate_prompt "hi" = (false, some "Prompt too short (minimum 10 characters)")
    ∧ validate_prompt (String.mk (List.replicate 5001 'a'))
        = (false, some "Prompt too long (maximum 5000 characters)")
    ∧ validate_prompt (String.mk (List.replicate 50 'a')) = (true, none) := by
  have hmain : ∀ p : String,
      ((pyStrip p).length = 0 →
        validate_prompt p = (false, some "Prompt cannot be empty"))
      ∧ ((pyStrip p).length ≠ 0 → p.length < 10 →
        validate_prompt p = (false, some "Prompt too short (minimum 10 characters)"))
      ∧ ((pyStrip p).length ≠ 0 → p.length > 5000 →
        validate_prompt p = (false, some "Prompt too long (maximum 5000 characters)"))
      ∧ ((pyStrip p).length ≠ 0 → 10 ≤ p.length → p.length ≤ 5000 →
        validate_prompt p = (true, none)) := by
    intro p
    have hne : (pyStrip p).length ≠ 0 → ¬(p = "" ∨ (pyStrip p).length = 0) := by
      intro h hc
      rcases hc with hc | hc
      · apply h
        rw [hc]
        rfl
      · exact h hc
    refine ⟨fun h => ?_, fun h h10 => ?_, fun h h5000 => ?_, fun h h10 h5000 => ?_⟩
    · unfold validate_prompt
      rw [if_pos (Or.inr h)]
    · unfold validate_prompt
      rw [if_neg (hne h), if_pos h10]
    · unfold validate_prompt
      rw [if_neg (hne h), if_neg (by omega), if_pos h5000]
    · unfold validate_prompt
      rw [if_neg (hne h), if_neg (by omega), if_neg (by omega)]
  refine ⟨hmain, rfl, by decide, ?_, ?_⟩
  · refine ((hmain _).2.2.1 ?_ ?_)
    · rw [pyStrip_len_of_all_a]
      omega
    · rw [mkRepl_length]
      omega
  · refine ((hmain _).2.2.2 ?_ ?_ ?_)
    · rw [pyStrip_len_of_all_a]
      omega
    · rw [mkRepl_length]
      omega
    · rw [mkRepl_length]
      omega

/-- Witness for C9: the universal part applied to a concrete short
input, and to a whitespace-only input of twenty no-break spaces
(U+00A0), which despite its length 20 strips to nothing and is rejected
as empty. -/
theorem C9_validate_prompt_contract_witness :
    validate_prompt "short" = (false, some "Prompt too short (minimum 10 characters)")
    ∧ (String.mk (List.replicate 20 (Char.ofNat 160))).length = 20
    ∧ validate_prompt (String.mk (List.replicate 20 (Char.ofNat 160)))
        = (false, some "Prompt cannot be empty") :=
  ⟨(C9_validate_prompt_contract.1 "short").2.1 (by decide) (by decide),
   by decide,
   (C9_validate_prompt_contract.1 (String.mk (List.replicate 20 (Char.ofNat 160)))).1
     (by decide)⟩

theorem firstSegErr_spec : ∀ segs : List SOPSegment,
    firstSegErr segs = ((segs.flatMap segCheckMsgs).filterMap id).head?
  | [] => rfl
  | s :: rest => by
    rw [List.flatMap_cons]
    by_cases h1 : s.title = ""
    · simp [firstSegErr, h1, segCheckMsgs]
    · by_cases h2 : s.description = ""
      · simp [firstSegErr, h1, h2, segCheckMsgs]
      · by_cases h3 : s.key_action = ""
        · simp [firstSegErr, h1, h2, h3, segCheckMsgs]
        · simp [firstSegErr, h1, h2, h3, segCheckMsgs, firstSegErr_spec rest]

/-- C3: `validate()` returns either success or exactly the
first-encountered failure reason among the ordered checks: missing
project title, missing purpose, missing audience, zero segments, more
than 6 segments, then per segment in list order missing title, missing
description and missing key action (the per-segment message names that
segment's number, as recorded in `segCheckMsgs`); moreover any segment
count outside [1,6] is rejected. -/
theorem C3_validate_first_failure :
    ∀ q : SOPQuestionnaire,
      (q.validate = match specFirstFailure q with
        | some e => (false, some e)
        | none => (true, none))
      ∧ ((q.segments.length = 0 ∨ q.segments.length > 6) → (q.validate).1 = false) := by
  intro q
  constructor
  · unfold SOPQuestionnaire.validate specFirstFailure
    split_ifs <;> simp_all [firstSegErr_spec]
  · intro hcount
    unfold SOPQuestionnaire.validate
    split_ifs <;> simp_all

/-- Segment 1 of the Demo scenario of the spec. -/
def demoSeg1 : SOPSegment :=
  { segment_number := 1, title := "S1", description := "d1",
    key_action := "a1", visual_focus := "v1" }

/-- Segment 2 of the Demo scenario of the spec. -/
def demoSeg2 : SOPSegment :=
  { segment_number := 2, title := "S2", description := "d2",
    key_action := "a2", visual_focus := "v2" }

/-- The Demo scenario of the spec: project "Demo", two segments,
promotional style, a person presenter described "X", strict consistency. -/
def demoQ : SOPQuestionnaire :=
  { project_title := "Demo", sop_purpose := "p", target_audience := "aud",
    video_style := .PROMOTIONAL, presenter_type := "person",
    presenter_description := some "X", consistency_mode := "strict",
    segments := [demoSeg1, demoSeg2] }

/-- A questionnaire that passes validation although its single segment
carries segment number 2 (validation never inspects segment numbers). -/
def cQ : SOPQuestionnaire :=
  { project_title := "T", sop_purpose := "p", target_audience := "aud",
    video_style := .PROFESSIONAL,
    segments := [{ segment_number := 2, title := "S", description := "d",
                   key_action := "a", visual_focus := "v" }] }

/-- A questionnaire with no segments, used as a concrete rejected input. -/
def zeroSegQ : SOPQuestionnaire :=
  { project_title := "T", sop_purpose := "p", target_audience := "aud",
    video_style := .PROFESSIONAL, segments := [] }

/-- Witness for C3: a concrete questionnaire with zero segments is
rejected, and its first failure is the zero-segment reason. -/
theorem C3_validate_first_failure_witness :
    (zeroSegQ.segments.length = 0 ∨ zeroSegQ.segments.length > 6)
    ∧ (zeroSegQ.validate).1 = false :=
  ⟨Or.inl (by decide), (C3_validate_first_failure zeroSegQ).2 (Or.inl (by decide))⟩

/-- Replaces each segment's number by an arbitrary function of its
position, leaving every other field unchanged. -/
def renumberSegs (f : Nat → Int) : Nat → List SOPSegment → List SOPSegment
  | _, [] => []
  | i, s :: rest => { s with segment_number := f i } :: renumberSegs f (i + 1) rest

theorem renumberSegs_length (f : Nat → Int) :
    ∀ (i : Nat) (segs : List SOPSegment), (renumberSegs f i segs).length = segs.length
  | _, [] => rfl
  | i, _ :: rest => by simp [renumberSegs, renumberSegs_length f (i + 1) rest]

theorem firstSegErr_renumber_none (f : Nat → Int) :
    ∀ (i : Nat) (segs : List SOPSegment),
      (firstSegErr (renumberSegs f i segs) = none ↔ firstSegErr segs = none)
  | _, [] => Iff.rfl
  | i, s :: rest => by
    show firstSegErr ({ s with segment_number := f i } :: renumberSegs f (i + 1) rest) = none
      ↔ firstSegErr (s :: rest) = none
    unfold firstSegErr
    split_ifs <;> simp [firstSegErr_renumber_none f (i + 1) rest]

/-- All completeness conditions that `validate()` checks, stated without
any reference to segment numbers. -/
def completeInputs (q : SOPQuestionnaire) : Prop :=
  q.project_title ≠ "" ∧ q.sop_purpose ≠ "" ∧ q.target_audience ≠ ""
  ∧ 1 ≤ q.segments.length ∧ q.segments.length ≤ 6
  ∧ ∀ s ∈ q.segments, s.title ≠ "" ∧ s.description ≠ "" ∧ s.key_action ≠ ""

instance (q : SOPQuestionnaire) : Decidable (completeInputs q) := by
  unfold completeInputs
  infer_instance

theorem firstSegErr_none_of_complete :
    ∀ segs : List SOPSegment,
      (∀ s ∈ segs, s.title ≠ "" ∧ s.description ≠ "" ∧ s.key_action ≠ "") →
      firstSegErr segs = none
  | [], _ => rfl
  | s :: rest, h => by
    have hs := h s (by simp)
    unfold firstSegErr
    rw [if_neg hs.1, if_neg hs.2.1, if_neg hs.2.2]
    exact firstSegErr_none_of_complete rest fun x hx => h x (by simp [hx])

/-- C10: the accept/reject outcome of `validate()` does not depend on the
segments' numbers: replacing every segment number by an arbitrary
function of position leaves the Boolean outcome unchanged, and every
questionnaire with non-empty project title, purpose, and audience, 1 to
6 segments, each with non-empty title, description and key action,
passes validation no matter what its segment numbers are. -/
theorem C10_validate_ignores_segment_numbers :
    ∀ (q : SOPQuestionnaire) (f : Nat → Int),
      ((SOPQuestionnaire.validate
          { q with segments := renumberSegs f 0 q.segments }).1 = (q.validate).1)
      ∧ (completeInputs q → (q.validate).1 = true) := by
  intro q f
  constructor
  · show (SOPQuestionnaire.validate { q with segments := renumberSegs f 0 q.segments }).1
      = (q.validate).1
    unfold SOPQuestionnaire.validate
    rw [renumberSegs_length f 0 q.segments]
    split_ifs <;> try rfl
    have h := firstSegErr_renumber_none f 0 q.segments
    rcases h1 : firstSegErr (renumberSegs f 0 q.segments) with _ | e1 <;>
      rcases h2 : firstSegErr q.segments with _ | e2 <;>
        simp [h1, h2] at h ⊢
  · intro hc
    obtain ⟨h1, h2, h3, h4, h5, h6⟩ := hc
    unfold SOPQuestionnaire.validate
    rw [if_neg h1, if_neg h2, if_neg h3, if_neg (by omega), if_neg (by omega),
      firstSegErr_none_of_complete q.segments h6]

/-- Witness for C10: a questionnaire whose two segments both carry the
duplicated, position-mismatched number 5 still passes validation. -/
theorem C10_validate_ignores_segment_numbers_witness :
    completeInputs
      { project_title := "T", sop_purpose := "p", target_audience := "aud",
        video_style := .PROFESSIONAL,
        segments := [{ segment_number := 5, title := "A", description := "d",
                       key_action := "k", visual_focus := "v" },
                     { segment_number := 5, title := "B", description := "d",
                       key_action := "k", visual_focus := "v" }] }
    ∧ (SOPQuestionnaire.validate
      { project_title := "T", sop_purpose := "p", target_audience := "aud",
        video_style := .PROFESSIONAL,
        segments := [{ segment_number := 5, title := "A", description := "d",
                       key_action := "k", visual_focus := "v" },
                     { segment_number := 5, title := "B", description := "d",
                       key_action := "k", visual_focus := "v" }] }).1 = true :=
  ⟨by decide,
   (C10_validate_ignores_segment_numbers _ (fun _ => 0)).2 (by decide)⟩

theorem transLoop_length (q : SOPQuestionnaire) :
    ∀ (segs : List SOPSegment) (prev : Option SOPSegment),
      (transLoop q segs prev).length = segs.length
  | [], _ => rfl
  | _ :: rest, prev => by simp [transLoop, transLoop_length q rest]

theorem transLoop_scene_ids (q : SOPQuestionnaire) :
    ∀ (segs : List SOPSegment) (prev : Option SOPSegment),
      (transLoop q segs prev).map (fun r => r.scene_id)
        = segs.map (fun s => some (q.project_title ++ "_segment_" ++ toString s.segment_number))
  | [], _ => rfl
  | s :: rest, prev => by
    simp [transLoop, mkRequest, transLoop_scene_ids q rest]

theorem transLoop_sequence_ids (q : SOPQuestionnaire) :
    ∀ (segs : List SOPSegment) (prev : Option SOPSegment),
      (transLoop q segs prev).map (fun r => r.sequence_id)
        = segs.map (fun _ => some q.project_title)
  | [], _ => rfl
  | s :: rest, prev => by
    simp [transLoop, mkRequest, transLoop_sequence_ids q rest]

/-- C1 (amended): if `validate()` fails, `translate_questionnaire` fails
the whole operation with a ValueError and produces no requests; if it
succeeds, the translator produces exactly one request per segment,
iterating segments in list order, where the k-th request's scene id is
the project title followed by "_segment_" and the k-th segment's own
`segment_number` field (not its position k), and every sequence id is
the project title. -/
theorem C1_translate_questionnaire_shape :
    ∀ q : SOPQuestionnaire,
      ((q.validate).1 = false →
        translate_questionnaire q
          = .error ("Invalid questionnaire: " ++ optMsg (q.validate).2))
      ∧ ((q.validate).1 = true →
        ∃ reqs, translate_questionnaire q = .ok reqs
          ∧ reqs.length = q.segments.length
          ∧ reqs.map (fun r => r.scene_id)
              = q.segments.map
                  (fun s => some (q.project_title ++ "_segment_" ++ toString s.segment_number))
          ∧ reqs.map (fun r => r.sequence_id)
              = q.segments.map (fun _ => some q.project_title)) := by
  intro q
  constructor
  · intro h
    unfold translate_questionnaire
    rw [if_pos h]
  · intro h
    refine ⟨transLoop q q.segments none, ?_, transLoop_length q q.segments none,
      transLoop_scene_ids q q.segments none, transLoop_sequence_ids q q.segments none⟩
    unfold translate_questionnaire
    rw [if_neg (by simp [h])]

/-- Witness for C1 (amended): the Demo questionnaire passes validation
and translates to the request list described by the theorem. -/
theorem C1_translate_questionnaire_shape_witness :
    (demoQ.validate).1 = true
    ∧ ∃ reqs, translate_questionnaire demoQ = .ok reqs
        ∧ reqs.length = demoQ.segments.length
        ∧ reqs.map (fun r => r.scene_id)
            = demoQ.segments.map
                (fun s => some (demoQ.project_title ++ "_segment_" ++ toString s.segment_number))
        ∧ reqs.map (fun r => r.sequence_id)
            = demoQ.segments.map (fun _ => some demoQ.project_title) :=
  ⟨by decide, (C1_translate_questionnaire_shape demoQ).2 (by decide)⟩

set_option maxRecDepth 20000 in
/-- Counterexample to C1 as stated: `cQ` passes validation and has one
segment, but the first (k = 1) request's scene id is "T_segment_2" — it
is built from the segment's `segment_number` field (2), not from the
position k = 1, so it differs from the claimed "T_segment_1". -/
theorem C1_translate_questionnaire_shape_counterexample :
    (cQ.validate).1 = true
    ∧ (translate_questionnaire cQ).toOption.map (List.map (fun r => r.scene_id))
        = some [some "T_segment_2"]
    ∧ ("T_segment_2" : String) ≠ "T_segment_1" := by
  refine ⟨by decide, by decide, by decide⟩

set_option maxRecDepth 20000 in
/-- Counterexample to C2 as stated: in the Demo scenario the claim says
segment 1's prompt contains neither phrase, yet segment 1's prompt does
contain "STRICT consistency: no variations from established baseline",
because the consistency-mode disclaimer is appended to every prompt
whenever the mode is strict, independently of the segment number. -/
theorem C2_continuity_block_counterexample :
    demoSeg1.segment_number = 1
    ∧ demoQ.consistency_mode = "strict"
    ∧ strHas (translate_segment demoSeg1 demoQ none)
        "STRICT consistency: no variations from established baseline" = true := by
  refine ⟨rfl, rfl, by decide⟩

set_option maxRecDepth 20000 in
/-- C2 (amended): a continuity block is emitted only when a previous
segment is supplied and the current segment number exceeds 1 (a segment
with number 1, or one translated without a previous segment, never gets
one), and it opens with the presenter-match phrase whenever a person or
animated-character presenter is configured; the consistency-mode
disclaimer, by contrast, is appended to every prompt, so in the Demo
scenario segment 2's prompt contains both required phrases while
segment 1's prompt contains the STRICT phrase but not the
presenter-match phrase. -/
theorem C2_continuity_block :
    (∀ (seg : SOPSegment) (q : SOPQuestionnaire) (prev : Option SOPSegment),
      (seg.segment_number ≤ 1 → continuityParts seg q prev = [])
      ∧ (prev = none → continuityParts seg q prev = [])
      ∧ (∀ p, prev = some p → seg.segment_number > 1 →
          (q.presenter_type = "person" ∨ q.presenter_type = "animated_character") →
          ∃ rest, continuityParts seg q prev =
            "CONTINUITY REQUIREMENTS:"
              :: ("- Presenter MUST match exact appearance from Segment "
                    ++ toString p.segment_number) :: rest)
      ∧ (q.consistency_mode = "strict" →
          modeLine q.consistency_mode
            = "- STRICT consistency: no variations from established baseline"
          ∧ modeLine q.consistency_mode ∈ promptParts seg q prev))
    ∧ strHas (translate_segment demoSeg2 demoQ (some demoSeg1))
        "Presenter MUST match exact appearance from Segment 1" = true
    ∧ strHas (translate_segment demoSeg2 demoQ (some demoSeg1))
        "STRICT consistency: no variations from established baseline" = true
    ∧ strHas (translate_segment demoSeg1 demoQ none)
        "Presenter MUST match exact appearance from Segment 1" = false
    ∧ strHas (translate_segment demoSeg1 demoQ none)
        "STRICT consistency: no variations from established baseline" = true := by
  refine ⟨?_, by decide, by decide, by decide, by decide⟩
  intro seg q prev
  refine ⟨fun h => ?_, fun h => ?_, fun p hp hn hpt => ?_, fun hm => ⟨?_, ?_⟩⟩
  · cases prev with
    | none => rfl
    | some p => simp [continuityParts, show ¬(seg.segment_number > 1) by omega]
  · rw [h]
    rfl
  · rw [hp]
    simp only [continuityParts]
    rw [if_pos hn, if_pos hpt]
    refine ⟨(if optTruthy q.presenter_clothing then
        ["- Maintain exact clothing: " ++ q.presenter_clothing.getD ""] else [])
      ++ (if q.primary_location ≠ "" then
        ["- Location MUST be identical to previous segment",
         "- Lighting MUST match previous segment exactly"] else [])
      ++ ["- Color palette MUST be consistent with previous segment", ""], ?_⟩
    simp
  · rw [hm]
    rfl
  · have : modeLine q.consistency_mode ∈ [modeLine q.consistency_mode, ""] := by simp
    unfold promptParts
    simp only [List.mem_append]
    tauto

/-- Witness for C2 (amended): the universal part applied to the Demo
segments — segment 1 gets no continuity block, and segment 2 (with
segment 1 supplied as previous) gets one opening with the
presenter-match phrase. -/
theorem C2_continuity_block_witness :
    continuityParts demoSeg1 demoQ none = []
    ∧ ∃ rest, continuityParts demoSeg2 demoQ (some demoSeg1) =
        "CONTINUITY REQUIREMENTS:"
          :: ("- Presenter MUST match exact appearance from Segment "
                ++ toString demoSeg1.segment_number) :: rest :=
  ⟨(C2_continuity_block.1 demoSeg1 demoQ none).2.1 rfl,
   (C2_continuity_block.1 demoSeg2 demoQ (some demoSeg1)).2.2.1 demoSeg1 rfl
     (by decide) (Or.inl rfl)⟩

/-- Every part of the prompt other than the consistency-mode disclaimer,
in source order: everything before the disclaimer line. -/
def partsBeforeMode (seg : SOPSegment) (q : SOPQuestionnaire)
    (prev : Option SOPSegment) : List String :=
  headerParts seg ++ presenterParts q ++ locationParts seg q
  ++ cinematographyParts q ++ brandColorParts q ++ textOverlayParts seg q
  ++ propsParts seg ++ continuityParts seg q prev ++ techParts

theorem promptParts_split (seg : SOPSegment) (q : SOPQuestionnaire)
    (prev : Option SOPSegment) :
    promptParts seg q prev
      = partsBeforeMode seg q prev ++ modeLine q.consistency_mode :: ("" :: negParts seg) := by
  unfold promptParts partsBeforeMode
  simp [List.append_assoc]

/-- C6: for two questionnaires identical except for `consistency_mode`
taking two distinct values among strict, balanced and creative, and any
segment, the two emitted prompt-line lists share the same lines before
and after the disclaimer and differ exactly in that one disclaimer line,
and each full prompt is those lines joined with newlines. -/
theorem C6_mode_changes_one_line :
    ∀ (seg : SOPSegment) (q : SOPQuestionnaire) (prev : Option SOPSegment) (m2 : String),
      q.consistency_mode ∈ (["strict", "balanced", "creative"] : List String) →
      m2 ∈ (["strict", "balanced", "creative"] : List String) →
      q.consistency_mode ≠ m2 →
      ∃ pre post,
        promptParts seg q prev = pre ++ modeLine q.consistency_mode :: post
        ∧ promptParts seg { q with consistency_mode := m2 } prev
            = pre ++ modeLine m2 :: post
        ∧ modeLine q.consistency_mode ≠ modeLine m2
        ∧ translate_segment seg q prev
            = String.intercalate "\n" (pre ++ modeLine q.consistency_mode :: post)
        ∧ translate_segment seg { q with consistency_mode := m2 } prev
            = String.intercalate "\n" (pre ++ modeLine m2 :: post) := by
  intro seg q prev m2 hm1 hm2 hne
  refine ⟨partsBeforeMode seg q prev, "" :: negParts seg,
    promptParts_split seg q prev, promptParts_split seg _ prev, ?_, ?_, ?_⟩
  · simp only [List.mem_cons, List.not_mem_nil, or_false] at hm1 hm2
    rcases hm1 with h1 | h1 | h1 <;> rcases hm2 with h2 | h2 | h2 <;>
      first
        | exact absurd (h1.trans h2.symm) hne
        | (rw [h1, h2]; decide)
  · exact congrArg (String.intercalate "\n") (promptParts_split seg q prev)
  · exact congrArg (String.intercalate "\n")
      (promptParts_split seg { q with consistency_mode := m2 } prev)

/-- Witness for C6: the Demo questionnaire (strict) against its balanced
variant. -/
theorem C6_mode_changes_one_line_witness :
    ∃ pre post,
      promptParts demoSeg1 demoQ none = pre ++ modeLine demoQ.consistency_mode :: post
      ∧ promptParts demoSeg1 { demoQ with consistency_mode := "balanced" } none
          = pre ++ modeLine "balanced" :: post
      ∧ modeLine demoQ.consistency_mode ≠ modeLine "balanced"
      ∧ translate_segment demoSeg1 demoQ none
          = String.intercalate "\n" (pre ++ modeLine demoQ.consistency_mode :: post)
      ∧ translate_segment demoSeg1 { demoQ with consistency_mode := "balanced" } none
          = String.intercalate "\n" (pre ++ modeLine "balanced" :: post) :=
  C6_mode_changes_one_line demoSeg1 demoQ none "balanced"
    (by decide) (by decide) (by decide)

/-- C8: the technical-requirements block of every prompt contains the
literal line "- Exactly 8 seconds duration", and the prompt is entirely
independent of the segment's configured `duration` field: changing that
field to any value leaves the prompt unchanged. -/
theorem C8_duration_literal :
    ∀ (seg : SOPSegment) (q : SOPQuestionnaire) (prev : Option SOPSegment) (d : Int),
      "- Exactly 8 seconds duration" ∈ promptParts seg q prev
      ∧ "- Exactly 8 seconds duration" ∈ techParts
      ∧ translate_segment { seg with duration := d } q prev = translate_segment seg q prev := by
  intro seg q prev d
  have htech : "- Exactly 8 seconds duration" ∈ techParts := by decide
  refine ⟨?_, htech, rfl⟩
  unfold promptParts
  simp only [List.mem_append]
  tauto

/-- C4: `generate_video` never raises — it is a total function into
`VideoGenerationResponse` — and converts every failure of the POST
request (network-level failures and unexpected exceptions alike) and
every exception raised inside its try block (such as a download error on
the synchronous path) into a response with `success = false` carrying
the error text; by contrast `_download_video` re-raises its failures:
it returns `Except.error` with the underlying error rather than
absorbing it into a response. -/
theorem C4_generate_video_error_handling :
    ∀ (outputDir : String) (req : VideoGenerationRequest) (t : Nat)
      (post : Except String GenResult)
      (polls : Nat → Except String PollResult)
      (fetch : String → Except String Unit),
      (∀ e, post = .error e →
        generate_video outputDir req t post polls fetch = failResp e)
      ∧ (∀ res url e, post = .ok res → res.operationId = none →
          res.videoUrl = some url → fetch url = .error e →
          generate_video outputDir req t post polls fetch = failResp e)
      ∧ (∀ res opId e, post = .ok res → res.operationId = some opId →
          polls 0 = .error e →
          generate_video outputDir req t post polls fetch
            = failResp ("Polling failed: " ++ e))
      ∧ (∀ (sceneId : Option String) (e : String),
          download_video outputDir sceneId t (.error e) = .error e) := by
  intro outputDir req t post polls fetch
  refine ⟨fun e he => ?_, fun res url e hp hop hurl hf => ?_,
    fun res opId e hp hop he => ?_, fun sceneId e => rfl⟩
  · rw [he]
    rfl
  · simp [generate_video, hp, hop, hurl, download_video, hf]
  · simp [generate_video, hp, hop, poll_generation_status, pollLoop, he]

/-- Witness for C4: a failing POST yields the failed response with the
error text, at concrete inputs. -/
theorem C4_generate_video_error_handling_witness :
    generate_video "out" { prompt := "p" } 0 (.error "boom")
      (fun _ => .ok {}) (fun _ => .ok ()) = failResp "boom"
    ∧ download_video "out" none 0 (.error "disk full") = .error "disk full" :=
  ⟨(C4_generate_video_error_handling "out" { prompt := "p" } 0 (.error "boom")
      (fun _ => .ok {}) (fun _ => .ok ())).1 "boom" rfl,
   (C4_generate_video_error_handling "out" { prompt := "p" } 0 (.error "boom")
      (fun _ => .ok {}) (fun _ => .ok ())).2.2.2 none "disk full"⟩

theorem pollLoop_congr (dl : String → Except String String) :
    ∀ (rem i : Nat) (polls polls2 : Nat → Except String PollResult),
      (∀ j, i ≤ j → j < i + rem → polls j = polls2 j) →
      pollLoop polls dl i rem = pollLoop polls2 dl i rem
  | 0, _, _, _, _ => rfl
  | rem + 1, i, polls, polls2, h => by
    have hi : polls i = polls2 i := h i (Nat.le_refl i) (by omega)
    have ih := pollLoop_congr dl rem (i + 1) polls polls2
      (fun j hj1 hj2 => h j (by omega) (by omega))
    simp only [pollLoop, hi]
    cases polls2 i with
    | error e => rfl
    | ok r =>
      by_cases hd : r.done
      · cases herr : r.error with
        | some m => simp [hd, herr]
        | none =>
          cases hurl : r.videoUrl with
          | none => simp [hd, herr, hurl, ih]
          | some u =>
            by_cases hu : u = ""
            · simp [hd, herr, hurl, hu, ih]
            · cases hdl : dl u <;> simp [hd, herr, hurl, hu, hdl]
      · simp [hd, ih]

theorem pollLoop_skip (polls : Nat → Except String PollResult)
    (dl : String → Except String String) :
    ∀ (k i rem : Nat), k ≤ rem →
      (∀ j, j < k → ∃ rj, polls (i + j) = .ok rj ∧ rj.done = false) →
      pollLoop polls dl i rem = pollLoop polls dl (i + k) (rem - k)
  | 0, i, rem, _, _ => by simp
  | k + 1, i, rem, hk, h => by
    obtain ⟨r0, hr0, hd0⟩ := h 0 (by omega)
    cases rem with
    | zero => omega
    | succ rr =>
      have step : pollLoop polls dl i (rr + 1) = pollLoop polls dl (i + 1) rr := by
        simp only [pollLoop]
        rw [show polls i = .ok r0 from by simpa using hr0]
        simp [hd0]
      rw [step, pollLoop_skip polls dl k (i + 1) rr (by omega)
        (fun j hj => by
          obtain ⟨rj, hrj, hdj⟩ := h (j + 1) (by omega)
          exact ⟨rj, by rw [show i + 1 + j = i + (j + 1) from by omega]; exact hrj, hdj⟩)]
      rw [show i + 1 + k = i + (k + 1) from by omega,
        show rr - k = rr + 1 - (k + 1) from by omega]

theorem poll_status_done_success (polls : Nat → Except String PollResult)
    (dl : String → Except String String) (k : Nat) (r : PollResult) (u path : String)
    (hk : k < 60)
    (hbelow : ∀ i, i < k → ∃ ri, polls i = .ok ri ∧ ri.done = false)
    (hpk : polls k = .ok r) (hd : r.done = true) (herr : r.error = none)
    (hurl : r.videoUrl = some u) (hu : u ≠ "") (hdl : dl u = .ok path) :
    poll_generation_status polls dl
      = { success := true, video_path := some path, video_url := some u,
          metadata := some (r.metadata.getD []) } := by
  unfold poll_generation_status
  rw [pollLoop_skip polls dl k 0 60 (by omega)
    (fun j hj => by simpa using hbelow j hj)]
  rw [show (0 + k) = k from by omega, show 60 - k = (59 - k) + 1 from by omega]
  simp only [pollLoop]
  rw [hpk]
  simp [hd, herr, hurl, hu, hdl]

theorem poll_status_done_error (polls : Nat → Except String PollResult)
    (dl : String → Except String String) (k : Nat) (r : PollResult) (m : Option String)
    (hk : k < 60)
    (hbelow : ∀ i, i < k → ∃ ri, polls i = .ok ri ∧ ri.done = false)
    (hpk : polls k = .ok r) (hd : r.done = true) (herr : r.error = some m) :
    poll_generation_status polls dl = failResp (m.getD "Unknown error") := by
  unfold poll_generation_status
  rw [pollLoop_skip polls dl k 0 60 (by omega)
    (fun j hj => by simpa using hbelow j hj)]
  rw [show (0 + k) = k from by omega, show 60 - k = (59 - k) + 1 from by omega]
  simp only [pollLoop]
  rw [hpk]
  simp [hd, herr]

/-- C5: polling consults at most the first 60 attempts (any two poll
oracles agreeing on attempts 0..59 give the same outcome); a done
response carrying a non-empty video URL at attempt k — including the
first — after k not-done responses yields an immediate success, whose
outcome is unchanged by whatever later attempts would have returned (no
further polling attempts); a done response with an error field yields a
failed response with the service-provided message; and 60 consecutive
not-done responses yield the "Generation timeout" failure — in every
case a response is returned, never an exception. -/
theorem C5_polling_contract :
    ∀ (polls : Nat → Except String PollResult) (dl : String → Except String String),
      (∀ polls2, (∀ i, i < 60 → polls i = polls2 i) →
        poll_generation_status polls dl = poll_generation_status polls2 dl)
      ∧ (∀ (k : Nat) (r : PollResult) (u path : String), k < 60 →
          (∀ i, i < k → ∃ ri, polls i = .ok ri ∧ ri.done = false) →
          polls k = .ok r → r.done = true → r.error = none →
          r.videoUrl = some u → u ≠ "" → dl u = .ok path →
          (poll_generation_status polls dl
              = { success := true, video_path := some path, video_url := some u,
                  metadata := some (r.metadata.getD []) }
            ∧ ∀ polls2, (∀ i, i ≤ k → polls2 i = polls i) →
                poll_generation_status polls2 dl
                  = { success := true, video_path := some path, video_url := some u,
                      metadata := some (r.metadata.getD []) }))
      ∧ (∀ (k : Nat) (r : PollResult) (m : Option String), k < 60 →
          (∀ i, i < k → ∃ ri, polls i = .ok ri ∧ ri.done = false) →
          polls k = .ok r → r.done = true → r.error = some m →
          poll_generation_status polls dl = failResp (m.getD "Unknown error"))
      ∧ ((∀ i, i < 60 → ∃ ri, polls i = .ok ri ∧ ri.done = false) →
          poll_generation_status polls dl = failResp "Generation timeout") := by
  intro polls dl
  refine ⟨fun polls2 hagree => ?_, ?_, ?_, fun hnd => ?_⟩
  · unfold poll_generation_status
    exact pollLoop_congr dl 60 0 polls polls2 (fun j hj1 hj2 => hagree j (by omega))
  · intro k r u path hk hbelow hpk hd herr hurl hu hdl
    refine ⟨poll_status_done_success polls dl k r u path hk hbelow hpk hd herr hurl hu hdl,
      fun polls2 hagree => ?_⟩
    exact poll_status_done_success polls2 dl k r u path hk
      (fun i hi => by rw [hagree i (by omega)]; exact hbelow i hi)
      (by rw [hagree k (Nat.le_refl k)]; exact hpk) hd herr hurl hu hdl
  · intro k r m hk hbelow hpk hd herr
    exact poll_status_done_error polls dl k r m hk hbelow hpk hd herr
  · unfold poll_generation_status
    rw [pollLoop_skip polls dl 60 0 60 (Nat.le_refl 60)
      (fun j hj => by simpa using hnd j hj)]
    rfl

/-- Witness for C5: a poll oracle that is never done produces the
timeout failure, and one that is done with a video URL on the very first
attempt produces the immediate success. -/
theorem C5_polling_contract_witness :
    poll_generation_status (fun _ => .ok { done := false }) (fun _ => .ok "out.mp4")
      = failResp "Generation timeout"
    ∧ poll_generation_status (fun _ => .ok { done := true, videoUrl := some "http://x/v.mp4" })
        (fun _ => .ok "out.mp4")
      = { success := true, video_path := some "out.mp4",
          video_url := some "http://x/v.mp4", metadata := some [] } :=
  ⟨(C5_polling_contract (fun _ => .ok { done := false }) (fun _ => .ok "out.mp4")).2.2.2
      (fun i hi => ⟨{ done := false }, rfl, rfl⟩),
   ((C5_polling_contract (fun _ => .ok { done := true, videoUrl := some "http://x/v.mp4" })
        (fun _ => .ok "out.mp4")).2.1 0 { done := true, videoUrl := some "http://x/v.mp4" }
      "http://x/v.mp4" "out.mp4" (by omega) (fun i hi => absurd hi (by omega))
      rfl rfl rfl rfl (by decide) rfl).1⟩

/-- String value of a `VideoStyle`, as serialized by `to_dict`
(`self.video_style.value`). -/
def styleValue : VideoStyle → String
  | .PROFESSIONAL => "professional"
  | .CASUAL => "casual"
  | .EDUCATIONAL => "educational"
  | .PROMOTIONAL => "promotional"

/-- Deserialization of a `VideoStyle` by exact string match, as performed
by the Python enum constructor `VideoStyle(value)`; an unrecognized
string raises ValueError, modelled as `Except.error`. -/
def parseVideoStyle (s : String) : Except String VideoStyle :=
  if s = "professional" then .ok .PROFESSIONAL
  else if s = "casual" then .ok .CASUAL
  else if s = "educational" then .ok .EDUCATIONAL
  else if s = "promotional" then .ok .PROMOTIONAL
  else .error (sglq ++ s ++ sglq ++ " is not a valid VideoStyle")

/-- String value of a `PlatformTarget`, as serialized by `to_dict`. -/
def platValue : PlatformTarget → String
  | .INSTAGRAM => "instagram"
  | .TIKTOK => "tiktok"
  | .YOUTUBE_SHORTS => "youtube_shorts"
  | .FACEBOOK => "facebook"
  | .LINKEDIN => "linkedin"
  | .TWITTER => "twitter"

/-- Deserialization of a `PlatformTarget` by exact string match
(`PlatformTarget(p)`), failing on an unrecognized string. -/
def parsePlatform (s : String) : Except String PlatformTarget :=
  if s = "instagram" then .ok .INSTAGRAM
  else if s = "tiktok" then .ok .TIKTOK
  else if s = "youtube_shorts" then .ok .YOUTUBE_SHORTS
  else if s = "facebook" then .ok .FACEBOOK
  else if s = "linkedin" then .ok .LINKEDIN
  else if s = "twitter" then .ok .TWITTER
  else .error (sglq ++ s ++ sglq ++ " is not a valid PlatformTarget")

/-- The dictionary-shaped record emitted for one segment by `to_dict`. -/
structure SegDict where
  segment_number : Int
  title : String
  description : String
  key_action : String
  visual_focus : String
  duration : Int
  text_overlay : Option String
  voiceover_script : Option String
  props_needed : List String
  location : Option String
deriving DecidableEq, Repr

/-- The dictionary-shaped record emitted by `SOPQuestionnaire.to_dict`:
every field of the questionnaire, with enum fields replaced by their
string values. -/
structure QDict where
  project_title : String
  sop_purpose : String
  target_audience : String
  video_style : String
  brand_colors : List String
  brand_fonts : List String
  target_platforms : List String
  presenter_type : String
  presenter_description : Option String
  presenter_clothing : Option String
  primary_location : String
  location_description : String
  lighting_preference : String
  segments : List SegDict
  company_name : Option String
  logo_placement : Option String
  intro_outro_needed : Bool
  music_style : Option String
  voiceover_needed : Bool
  voiceover_language : String
  consistency_mode : String
deriving DecidableEq, Repr

/-- The per-segment record built inside `to_dict`. -/
def seg_to_dict (s : SOPSegment) : SegDict :=
  { segment_number := s.segment_number, title := s.title,
    description := s.description, key_action := s.key_action,
    visual_focus := s.visual_focus, duration := s.duration,
    text_overlay := s.text_overlay, voiceover_script := s.voiceover_script,
    props_needed := s.props_needed, location := s.location }

/-- Embedding of `SOPQuestionnaire.to_dict`. -/
def SOPQuestionnaire.to_dict (q : SOPQuestionnaire) : QDict :=
  { project_title := q.project_title, sop_purpose := q.sop_purpose,
    target_audience := q.target_audience,
    video_style := styleValue q.video_style,
    brand_colors := q.brand_colors, brand_fonts := q.brand_fonts,
    target_platforms := q.target_platforms.map platValue,
    presenter_type := q.presenter_type,
    presenter_description := q.presenter_description,
    presenter_clothing := q.presenter_clothing,
    primary_location := q.primary_location,
    location_description := q.location_description,
    lighting_preference := q.lighting_preference,
    segments := q.segments.map seg_to_dict,
    company_name := q.company_name, logo_placement := q.logo_placement,
    intro_outro_needed := q.intro_outro_needed,
    music_style := q.music_style, voiceover_needed := q.voiceover_needed,
    voiceover_language := q.voiceover_language,
    consistency_mode := q.consistency_mode }

/-- The per-segment parsing performed by `from_json` (all keys are
present in a record produced by `to_dict`, so the `.get` defaults for
absent keys are not exercised here). -/
def seg_from_dict (s : SegDict) : SOPSegment :=
  { segment_number := s.segment_number, title := s.title,
    description := s.description, key_action := s.key_action,
    visual_focus := s.visual_focus, duration := s.duration,
    text_overlay := s.text_overlay, voiceover_script := s.voiceover_script,
    props_needed := s.props_needed, location := s.location }

/-- Sequences a fallible parser over a list, propagating the first
failure — the behavior of the Python list comprehensions in `from_json`. -/
def parseAll (f : String → Except String PlatformTarget) :
    List String → Except String (List PlatformTarget)
  | [] => .ok []
  | a :: rest => do
    let b ← f a
    let bs ← parseAll f rest
    pure (b :: bs)

/-- The record-parsing logic of `SOPQuestionnaire.from_json`, applied to
an in-memory record (the file read is outside this model): enum strings
are deserialized by exact match, raising (modelled as `Except.error`) on
the first unrecognized value, and every other field is copied. -/
def SOPQuestionnaire.from_dict (d : QDict) : Except String SOPQuestionnaire :=
  match parseVideoStyle d.video_style with
  | .error e => .error e
  | .ok vs =>
    match parseAll parsePlatform d.target_platforms with
    | .error e => .error e
    | .ok ps =>
      .ok { project_title := d.project_title, sop_purpose := d.sop_purpose,
            target_audience := d.target_audience, video_style := vs,
            brand_colors := d.brand_colors, brand_fonts := d.brand_fonts,
            target_platforms := ps, presenter_type := d.presenter_type,
            presenter_description := d.presenter_description,
            presenter_clothing := d.presenter_clothing,
            primary_location := d.primary_location,
            location_description := d.location_description,
            lighting_preference := d.lighting_preference,
            segments := d.segments.map seg_from_dict,
            company_name := d.company_name, logo_placement := d.logo_placement,
            intro_outro_needed := d.intro_outro_needed,
            music_style := d.music_style, voiceover_needed := d.voiceover_needed,
            voiceover_language := d.voiceover_language,
            consistency_mode := d.consistency_mode }

theorem parseVideoStyle_styleValue (v : VideoStyle) :
    parseVideoStyle (styleValue v) = .ok v := by
  cases v <;> rfl

theorem parseAll_platValue :
    ∀ l : List PlatformTarget, parseAll parsePlatform (l.map platValue) = .ok l
  | [] => rfl
  | p :: rest => by
    have ih := parseAll_platValue rest
    cases p <;> simp [parseAll, parsePlatform, platValue, ih] <;> rfl

/-- C7: serializing any questionnaire with `to_dict` and applying the
parsing logic of `from_json` to the resulting record reproduces the
questionnaire exactly, for every combination of optional fields
(including empty lists); enum fields serialize to their string values
and deserialize by exact string match, and deserialization fails when
the serialized style string is replaced by an unrecognized variant. -/
theorem C7_roundtrip :
    ∀ q : SOPQuestionnaire,
      SOPQuestionnaire.from_dict q.to_dict = .ok q
      ∧ (q.to_dict).video_style = styleValue q.video_style
      ∧ (q.to_dict).target_platforms = q.target_platforms.map platValue
      ∧ (∀ v, parseVideoStyle (styleValue v) = .ok v)
      ∧ (∀ s, s ∉ (["professional", "casual", "educational", "promotional"] : List String) →
          SOPQuestionnaire.from_dict { q.to_dict with video_style := s }
            = .error (sglq ++ s ++ sglq ++ " is not a valid VideoStyle")) := by
  intro q
  have hsegs : ∀ l : List SOPSegment, l.map (fun s => seg_from_dict (seg_to_dict s)) = l := by
    intro l
    have : (fun s => seg_from_dict (seg_to_dict s)) = fun s : SOPSegment => s := by
      funext s
      rfl
    rw [this]
    simp
  refine ⟨?_, rfl, rfl, parseVideoStyle_styleValue, fun s hs => ?_⟩
  · show SOPQuestionnaire.from_dict q.to_dict = .ok q
    unfold SOPQuestionnaire.from_dict
    rw [show (q.to_dict).video_style = styleValue q.video_style from rfl,
      parseVideoStyle_styleValue,
      show (q.to_dict).target_platforms = q.target_platforms.map platValue from rfl,
      parseAll_platValue]
    simp [SOPQuestionnaire.to_dict, List.map_map, Function.comp_def, hsegs]
  · simp only [List.mem_cons, List.not_mem_nil, or_false, not_or] at hs
    obtain ⟨h1, h2, h3, h4⟩ := hs
    unfold SOPQuestionnaire.from_dict
    rw [show ({ q.to_dict with video_style := s } : QDict).video_style = s from rfl]
    rw [show parseVideoStyle s = .error (sglq ++ s ++ sglq ++ " is not a valid VideoStyle") from by
      unfold parseVideoStyle
      rw [if_neg h1, if_neg h2, if_neg h3, if_neg h4]]

/-- Witness for C7: deserialization of the Demo questionnaire's record
with its style string replaced by "bogus" fails. -/
theorem C7_roundtrip_witness :
    SOPQuestionnaire.from_dict { demoQ.to_dict with video_style := "bogus" }
      = .error (sglq ++ "bogus" ++ sglq ++ " is not a valid VideoStyle") :=
  (C7_roundtrip demoQ).2.2.2.2 "bogus" (by decide)
